import Mathlib

/-!
Verification of the BillKhata tamper-resistant license validation subsystem
(`src/licensing/{crypto,storage,validation,constants,types}.ts`).

The embedding is shallow: JavaScript strings are modelled as lists of Unicode
code points (`JStr`), byte buffers as lists of `Nat` below 256, and every
function of the source is translated into an executable Lean definition of the
same name.  Machine arithmetic (JavaScript 32-bit bitwise operations and the
`>>> 0` coercion) is modelled by explicit reduction modulo `2 ^ 32`.
Effectful operations (storage reads and writes, the module-level validation
cache, clock reads, device identity) are modelled by passing an explicit
environment in and returning the performed writes and the new cache out.
-/

set_option maxRecDepth 10000

namespace BillKhata

/-- Equality of `Except` values is decidable when it is on both sides. -/
instance {ε α : Type} [DecidableEq ε] [DecidableEq α] : DecidableEq (Except ε α)
  | Except.ok a, Except.ok b => decidable_of_iff (a = b) (by simp)
  | Except.ok _, Except.error _ => isFalse (by simp)
  | Except.error _, Except.ok _ => isFalse (by simp)
  | Except.error e, Except.error f => decidable_of_iff (e = f) (by simp)

/-- A JavaScript string, as the list of its Unicode code points.  All strings
manipulated by the licensing code are sequences of scalar values below
`0x10000`, so the distinction between UTF-16 code units and code points does
not arise. -/
abbrev JStr := List Nat

/-- Embed a Lean string literal as a `JStr`. -/
def strLit (s : String) : JStr := s.data.map Char.toNat

/-- 32-bit truncation, the model of JavaScript's `>>> 0`. -/
def w32 (n : Nat) : Nat := n % 4294967296

/-- Bitwise complement on 32 bits, the model of `~x` under later masking. -/
def not32 (x : Nat) : Nat := Nat.xor x 4294967295

/-- `rotr` from `crypto.ts`: `(n >>> x) | (n << (32 - x))`, truncated to 32
bits by the surrounding arithmetic. -/
def rotr (n x : Nat) : Nat := w32 (Nat.lor (Nat.shiftRight n x) (Nat.shiftLeft n (32 - x)))

/-- Three-way xor, used in the sigma functions. -/
def xor3 (a b c : Nat) : Nat := Nat.xor (Nat.xor a b) c

/-- UTF-8 encoding of one code point, the byte sequence `TextEncoder` emits. -/
def utf8Char (c : Nat) : List Nat :=
  if c < 128 then [c]
  else if c < 2048 then [192 + c / 64, 128 + c % 64]
  else if c < 65536 then [224 + c / 4096, 128 + (c / 64) % 64, 128 + c % 64]
  else [240 + c / 262144, 128 + (c / 4096) % 64, 128 + (c / 64) % 64, 128 + c % 64]

/-- UTF-8 encoding of a string: the model of `new TextEncoder().encode(s)`. -/
def utf8Encode (s : JStr) : List Nat := s.flatMap utf8Char

/-- The SHA-256 round constants `K` from `crypto.ts` (the source writes them
in hex; they are listed here in decimal, six per row, in the same order). -/
def sha256K : List Nat :=
  [1116352408, 1899447441, 3049323471, 3921009573, 961987163, 1508970993,
   2453635748, 2870763221, 3624381080, 310598401, 607225278, 1426881987,
   1925078388, 2162078206, 2614888103, 3248222580, 3835390401, 4022224774,
   264347078, 604807628, 770255983, 1249150122, 1555081692, 1996064986,
   2554220882, 2821834349, 2952996808, 3210313671, 3336571891, 3584528711,
   113926993, 338241895, 666307205, 773529912, 1294757372, 1396182291,
   1695183700, 1986661051, 2177026350, 2456956037, 2730485921, 2820302411,
   3259730800, 3345764771, 3516065817, 3600352804, 4094571909, 275423344,
   430227734, 506948616, 659060556, 883997877, 958139571, 1322822218,
   1537002063, 1747873779, 1955562222, 2024104815, 2227730452, 2361852424,
   2428436474, 2756734187, 3204031479, 3329325298]

/-- The eight SHA-256 working registers. -/
structure Sha256St where
  a : Nat
  b : Nat
  c : Nat
  d : Nat
  e : Nat
  f : Nat
  g : Nat
  h : Nat
deriving DecidableEq

/-- The initial hash value `H` from `crypto.ts`, in decimal. -/
def sha256Init : Sha256St :=
  ⟨1779033703, 3144134277, 1013904242, 2773480762,
   1359893119, 2600822924, 528734635, 1541459225⟩

/-- Big-endian 32-bit words from a byte list (`view.getUint32(_, false)` over a
block). -/
def bytesToWords : List Nat → List Nat
  | b0 :: b1 :: b2 :: b3 :: rest =>
      (b0 * 16777216 + b1 * 65536 + b2 * 256 + b3) :: bytesToWords rest
  | _ => []

/-- Message-schedule extension.  The accumulator holds the words produced so
far, newest first, so `W[t-2]` is entry 1 and `W[t-16]` is entry 15. -/
def sha256Extend : Nat → List Nat → List Nat
  | 0, acc => acc
  | n + 1, acc =>
      let wm2 := acc.getD 1 0
      let wm7 := acc.getD 6 0
      let wm15 := acc.getD 14 0
      let wm16 := acc.getD 15 0
      let s0 := xor3 (rotr wm15 7) (rotr wm15 18) (Nat.shiftRight wm15 3)
      let s1 := xor3 (rotr wm2 17) (rotr wm2 19) (Nat.shiftRight wm2 10)
      sha256Extend n (w32 (wm16 + s0 + wm7 + s1) :: acc)

/-- One round of the SHA-256 main loop. -/
def sha256Round (st : Sha256St) (kw : Nat × Nat) : Sha256St :=
  let S1 := xor3 (rotr st.e 6) (rotr st.e 11) (rotr st.e 25)
  let ch := Nat.xor (Nat.land st.e st.f) (Nat.land (not32 st.e) st.g)
  let temp1 := w32 (st.h + S1 + ch + kw.1 + kw.2)
  let S0 := xor3 (rotr st.a 2) (rotr st.a 13) (rotr st.a 22)
  let maj := xor3 (Nat.land st.a st.b) (Nat.land st.a st.c) (Nat.land st.b st.c)
  let temp2 := w32 (S0 + maj)
  ⟨w32 (temp1 + temp2), st.a, st.b, st.c, w32 (st.d + temp1), st.e, st.f, st.g⟩

/-- Process one 64-byte block: schedule extension, 64 rounds, feed-forward. -/
def sha256Compress (H : Sha256St) (block : List Nat) : Sha256St :=
  let W := (sha256Extend 48 (bytesToWords block).reverse).reverse
  let st := (sha256K.zip W).foldl sha256Round H
  ⟨w32 (H.a + st.a), w32 (H.b + st.b), w32 (H.c + st.c), w32 (H.d + st.d),
   w32 (H.e + st.e), w32 (H.f + st.f), w32 (H.g + st.g), w32 (H.h + st.h)⟩

/-- The four big-endian bytes of a 32-bit word. -/
def wordBytes (w : Nat) : List Nat :=
  [w / 16777216 % 256, w / 65536 % 256, w / 256 % 256, w % 256]

/-- SHA-256 padding as implemented in `crypto.ts`: `0x80`, zeros, then an
8-byte length field whose upper four bytes are always zero and whose lower four
bytes hold the bit length truncated to 32 bits (`view.setUint32(paddedLen - 4,
bitLen, false)` on a zero-initialised buffer). -/
def sha256Pad (msg : List Nat) : List Nat :=
  let msgLen := msg.length
  let paddedLen := (msgLen + 9 + 63) / 64 * 64
  msg ++ [128] ++ List.replicate (paddedLen - msgLen - 9) 0
      ++ [0, 0, 0, 0] ++ wordBytes (w32 (msgLen * 8))

/-- Iterate the compression function over the padded message, 64 bytes at a
time; the fuel argument is the number of blocks. -/
def sha256Blocks : Nat → List Nat → Sha256St → Sha256St
  | 0, _, st => st
  | n + 1, bytes, st => sha256Blocks n (bytes.drop 64) (sha256Compress st (bytes.take 64))

/-- SHA-256 of a byte sequence, as the 32 digest bytes. -/
def sha256Bytes (msg : List Nat) : List Nat :=
  let padded := sha256Pad msg
  let st := sha256Blocks (padded.length / 64) padded sha256Init
  wordBytes st.a ++ wordBytes st.b ++ wordBytes st.c ++ wordBytes st.d
    ++ wordBytes st.e ++ wordBytes st.f ++ wordBytes st.g ++ wordBytes st.h

/-- Lowercase hex character of a nibble, as produced by `toString(16)`. -/
def hexCharOfNibble (n : Nat) : Nat := if n < 10 then 48 + n else 87 + n

/-- Two lowercase hex characters of a byte. -/
def byteHex (b : Nat) : List Nat := [hexCharOfNibble (b / 16), hexCharOfNibble (b % 16)]

/-- Hex string of a byte sequence.  Applied to the eight digest words this is
exactly `H.map(h => h.toString(16).padStart(8, '0')).join('')`. -/
def hexOfBytes (bs : List Nat) : JStr := bs.flatMap byteHex

/-- `sha256` from `crypto.ts`: UTF-8 encode the string, hash, render as a
64-character lowercase hex string. -/
def sha256 (message : JStr) : JStr := hexOfBytes (sha256Bytes (utf8Encode message))

/-- Value of a hex character, the model of `parseInt(c, 16)` on one digit. -/
def hexNibble (c : Nat) : Nat :=
  if 48 ≤ c ∧ c ≤ 57 then c - 48
  else if 97 ≤ c ∧ c ≤ 102 then c - 87
  else if 65 ≤ c ∧ c ≤ 70 then c - 55
  else 0

/-- `hexToBytes` from `crypto.ts`: consume the hex string two characters at a
time. -/
def hexToBytes : JStr → List Nat
  | c1 :: c2 :: rest => (hexNibble c1 * 16 + hexNibble c2) :: hexToBytes rest
  | _ => []

/-- `bytesToString` from `crypto.ts`: `String.fromCharCode` maps each byte to
the code point of the same value, so in the code-point model the string is the
byte list itself. -/
def bytesToString (bytes : List Nat) : JStr := bytes

/-- `hexToString` from `crypto.ts`. -/
def hexToString (hex : JStr) : JStr := bytesToString (hexToBytes hex)

/-- `hmacSha256` from `crypto.ts`.  Note that both hash invocations go through
`sha256`, which UTF-8 encodes its string argument; the pad and digest byte
sequences reach it only through `bytesToString`. -/
def hmacSha256 (key message : JStr) : JStr :=
  let blockSize := 64
  let keyBytes0 := utf8Encode key
  let keyBytes := if keyBytes0.length > blockSize then hexToBytes (sha256 key) else keyBytes0
  let paddedKey := keyBytes ++ List.replicate (blockSize - keyBytes.length) 0
  let ipad := paddedKey.map (fun b => Nat.xor b 0x36)
  let opad := paddedKey.map (fun b => Nat.xor b 0x5c)
  let innerInput := bytesToString ipad ++ message
  let innerHash := sha256 innerInput
  let outerInput := bytesToString opad ++ hexToString innerHash
  sha256 outerInput

/-- The nested MAC construction as the specification words it, over byte
sequences: the UTF-8 key bytes are hashed down if longer than the 64-byte
block, zero-padded to the block size, and the result is
`hash((key XOR ipad) || message)` for the inner digest and
`hash((key XOR opad) || innerDigest)` for the final value, with `||` plain
byte concatenation.  Rendered as hex for comparison with `hmacSha256`. -/
def hmacSha256Spec (key message : JStr) : JStr :=
  let blockSize := 64
  let keyBytes0 := utf8Encode key
  let keyBytes := if keyBytes0.length > blockSize then sha256Bytes keyBytes0 else keyBytes0
  let paddedKey := keyBytes ++ List.replicate (blockSize - keyBytes.length) 0
  let ipad := paddedKey.map (fun b => Nat.xor b 0x36)
  let opad := paddedKey.map (fun b => Nat.xor b 0x5c)
  let innerDigest := sha256Bytes (ipad ++ utf8Encode message)
  hexOfBytes (sha256Bytes (opad ++ innerDigest))

/-! ### Constants (`constants.ts`) -/

def TRIAL_DURATION_DAYS : Int := 14

def INTEGRITY_SCORE_THRESHOLD : Int := 50

def EMBEDDED_SECRET : JStr := strLit "BK_L1C3NS3_S3CR3T_2024_v1"

def LICENSE_DATA_VERSION : Int := 1

def MAX_TIME_DRIFT_MS : Int := 86400000

/-! ### Data model (`types.ts`) -/

/-- `LicensePayload` from `types.ts`. -/
structure LicensePayload where
  trialStartDate : JStr
  deviceFingerprint : JStr
  licenseKey : Option JStr
  version : Int
deriving DecidableEq

/-- `SignedLicenseData` from `types.ts`. -/
structure SignedLicenseData where
  payload : LicensePayload
  signature : JStr
deriving DecidableEq

/-! ### Payload serialization

`signPayload` serializes the payload with `JSON.stringify`.  Payload objects
are always built by `createSignedLicenseData` with the field order
`trialStartDate, deviceFingerprint, licenseKey, version`, which
`JSON.stringify` preserves. -/

/-- Decimal digits of a natural number. -/
def natToJStr (n : Nat) : JStr := (Nat.toDigits 10 n).map Char.toNat

/-- Decimal rendering of an integer, the model of `JSON.stringify` on an
integral number. -/
def intToJStr (i : Int) : JStr :=
  if i < 0 then 45 :: natToJStr i.natAbs else natToJStr i.natAbs

/-- `JSON.stringify` escaping of one string character. -/
def jsonEscapeChar (c : Nat) : List Nat :=
  if c = 34 then [92, 34]
  else if c = 92 then [92, 92]
  else if c = 8 then [92, 98]
  else if c = 9 then [92, 116]
  else if c = 10 then [92, 110]
  else if c = 12 then [92, 102]
  else if c = 13 then [92, 114]
  else if c < 32 then [92, 117, 48, 48] ++ byteHex c
  else [c]

/-- `JSON.stringify` of a string value. -/
def jsonString (s : JStr) : JStr := [34] ++ s.flatMap jsonEscapeChar ++ [34]

/-- `JSON.stringify` of a `LicensePayload` in the construction field order. -/
def jsonStringifyPayload (p : LicensePayload) : JStr :=
  strLit "\x7b\"trialStartDate\":" ++ jsonString p.trialStartDate
    ++ strLit ",\"deviceFingerprint\":" ++ jsonString p.deviceFingerprint
    ++ strLit ",\"licenseKey\":"
    ++ (match p.licenseKey with
        | none => strLit "null"
        | some k => jsonString k)
    ++ strLit ",\"version\":" ++ intToJStr p.version ++ strLit "\x7d"

/-! ### Signing (`crypto.ts`) -/

/-- `deriveDeviceKey` from `crypto.ts`. -/
def deriveDeviceKey (deviceFingerprint : JStr) : JStr :=
  hmacSha256 EMBEDDED_SECRET deviceFingerprint

/-- `signPayload` from `crypto.ts`. -/
def signPayload (payload : LicensePayload) (deviceFingerprint : JStr) : JStr :=
  hmacSha256 (deriveDeviceKey deviceFingerprint) (jsonStringifyPayload payload)

/-- `verifySignature` from `crypto.ts`. -/
def verifySignature (data : SignedLicenseData) (deviceFingerprint : JStr) : Bool :=
  decide (data.signature = signPayload data.payload deviceFingerprint)

/-- `createSignedLicenseData` from `crypto.ts`. -/
def createSignedLicenseData (trialStartDate deviceFingerprint : JStr)
    (licenseKey : Option JStr) : SignedLicenseData :=
  let payload : LicensePayload :=
    ⟨trialStartDate, deviceFingerprint, licenseKey, LICENSE_DATA_VERSION⟩
  ⟨payload, signPayload payload deviceFingerprint⟩

/-! ### License key codec (`crypto.ts`) -/

/-- ASCII uppercasing of one code point. -/
def upperChar (c : Nat) : Nat := if 97 ≤ c ∧ c ≤ 122 then c - 32 else c

/-- ASCII uppercasing, the model of `toUpperCase` on the ASCII strings this
code manipulates. -/
def toUpperCase (s : JStr) : JStr := s.map upperChar

/-- Global replacement of the dash character by the empty string. -/
def stripDashes (s : JStr) : JStr := s.filter (fun c => decide (c ≠ 45))

/-- Membership in the character class `[A-Z0-9]`. -/
def isUpperAlnum (c : Nat) : Bool :=
  decide ((65 ≤ c ∧ c ≤ 90) ∨ (48 ≤ c ∧ c ≤ 57))

/-- `generateChecksum` from `crypto.ts`: first four hex characters of
`sha256(devicePart + EMBEDDED_SECRET)`, uppercased. -/
def generateChecksum (devicePart : JStr) : JStr :=
  toUpperCase ((sha256 (devicePart ++ EMBEDDED_SECRET)).take 4)

/-- `validateLicenseKey` from `crypto.ts`. -/
def validateLicenseKey (licenseKey deviceFingerprint : JStr) : Bool :=
  let cleanKey := stripDashes (toUpperCase licenseKey)
  if cleanKey.length ≠ 16 ∨ ¬ cleanKey.all isUpperAlnum = true then false
  else
    let devicePart := cleanKey.take 12
    let checksumPart := (cleanKey.drop 12).take 4
    let expectedDevicePart := toUpperCase (deviceFingerprint.take 12)
    if devicePart ≠ expectedDevicePart then false
    else if checksumPart ≠ generateChecksum devicePart then false
    else true

/-- `generateLicenseKey` from `crypto.ts`: 12 identity characters plus a
4-character checksum, dash-grouped in fours. -/
def generateLicenseKey (deviceFingerprint : JStr) : JStr :=
  let devicePart := toUpperCase (deviceFingerprint.take 12)
  let checksumPart := generateChecksum devicePart
  let fullKey := devicePart ++ checksumPart
  fullKey.take 4 ++ [45] ++ (fullKey.drop 4).take 4 ++ [45]
    ++ (fullKey.drop 8).take 4 ++ [45] ++ (fullKey.drop 12).take 4

/-! ### Redundant storage (`storage.ts`)

Reads from the three locations surface failures as `null`, so a read outcome
is fully described by `StorageReadResult`.  Writes can fail per location;
which ones fail is part of the environment (`WriteEnv`), and a failed write
leaves the location's previous content in place. -/

/-- `StorageReadResult` from `storage.ts`. -/
structure StorageReadResult where
  asyncStorage : Option SignedLicenseData
  sqlite : Option SignedLicenseData
  fileSystem : Option SignedLicenseData
deriving DecidableEq

/-- Which of the three location writes fail in a given run. -/
structure WriteEnv where
  asyncFails : Bool
  sqliteFails : Bool
  fsFails : Bool
deriving DecidableEq

/-- A `WriteEnv` in which every location write succeeds. -/
def allWritesOk : WriteEnv := ⟨false, false, false⟩

/-- `writeToAllLocations` from `storage.ts`: attempt each location
independently, collect the failures, and throw only when all three failed.
Returns the storage contents after the attempt. -/
def writeToAllLocations (env : WriteEnv) (prev : StorageReadResult)
    (data : SignedLicenseData) : Except JStr StorageReadResult :=
  if env.asyncFails ∧ env.sqliteFails ∧ env.fsFails then
    Except.error (strLit "Failed to write license to any storage location")
  else
    Except.ok
      { asyncStorage := if env.asyncFails then prev.asyncStorage else some data
        sqlite := if env.sqliteFails then prev.sqlite else some data
        fileSystem := if env.fsFails then prev.fileSystem else some data }

/-- `countMatchingLocations` from `storage.ts`: among the non-null values (in
the fixed asyncStorage, sqlite, fileSystem order), one plus the number of
later values whose `signature` equals the first value's `signature`. -/
def countMatchingLocations (result : StorageReadResult) : Nat :=
  let nonNull := [result.asyncStorage, result.sqlite, result.fileSystem].filterMap id
  match nonNull with
  | [] => 0
  | [_] => 1
  | first :: rest => 1 + rest.countP (fun v => decide (v.signature = first.signature))

/-- Reference definition for the corrected consensus-count claim: the number
of non-null location values whose `signature` equals that of the first
non-null value in the fixed asyncStorage, sqlite, fileSystem order (0 when all
three are absent). -/
def firstSigGroupSize (result : StorageReadResult) : Nat :=
  let nonNull := [result.asyncStorage, result.sqlite, result.fileSystem].filterMap id
  match nonNull with
  | [] => 0
  | first :: _ => nonNull.countP (fun v => decide (v.signature = first.signature))

/-- Insertion into the signature-keyed group map of `getMostTrustedData`,
mirroring JavaScript `Map` semantics: an existing key keeps its position and
its group grows at the end; a new key is appended. -/
def addToGroups : List (JStr × List SignedLicenseData) → SignedLicenseData →
    List (JStr × List SignedLicenseData)
  | [], d => [(d.signature, [d])]
  | (sig, g) :: gs, d =>
      if sig = d.signature then (sig, g ++ [d]) :: gs
      else (sig, g) :: addToGroups gs d

/-- Build the signature groups of a value list in encounter order. -/
def buildGroups (values : List SignedLicenseData) : List (JStr × List SignedLicenseData) :=
  values.foldl addToGroups []

/-- The majority scan of `getMostTrustedData`: walk the groups keeping the
first group of maximal size seen so far (strict improvement required), and
return that group's first member. -/
def pickMajority : List (JStr × List SignedLicenseData) → Nat →
    Option SignedLicenseData → Option SignedLicenseData
  | [], _, best => best
  | (_, g) :: gs, maxCount, best =>
      if g.length > maxCount then pickMajority gs g.length g.head?
      else pickMajority gs maxCount best

/-- `getMostTrustedData` from `storage.ts`. -/
def getMostTrustedData (result : StorageReadResult) : Option SignedLicenseData :=
  let values := [result.asyncStorage, result.sqlite, result.fileSystem].filterMap id
  match values with
  | [] => none
  | [v] => some v
  | v1 :: v2 :: rest => pickMajority (buildGroups (v1 :: v2 :: rest)) 0 none

/-- `repairStorage` from `storage.ts`. -/
def repairStorage (env : WriteEnv) (prev : StorageReadResult)
    (trustedData : SignedLicenseData) : Except JStr StorageReadResult :=
  writeToAllLocations env prev trustedData

/-! ### Dates

The validation engine compares epoch-millisecond values obtained from
`new Date(isoString).getTime()`.  The strings it parses are either produced by
`toISOString` (format `YYYY-MM-DDTHH:MM:SS.mmmZ`) or the literal date
`2024-01-01`; `parseDateMs` covers exactly these two shapes and returns `none`
(the model of `NaN`) otherwise.  All `NaN` comparisons are false, which the
consumers below mirror case by case. -/

/-- Is the code point an ASCII digit. -/
def isDigitCp (c : Nat) : Bool := decide (48 ≤ c ∧ c ≤ 57)

/-- Decimal value of a digit string (assumed all digits). -/
def digitsVal (s : JStr) : Nat := s.foldl (fun acc c => acc * 10 + (c - 48)) 0

/-- Days from the civil epoch 1970-01-01 for a Gregorian date, the standard
era-based calculation. -/
def daysFromCivil (y m d : Int) : Int :=
  let y1 := if m ≤ 2 then y - 1 else y
  let era := (if 0 ≤ y1 then y1 else y1 - 399) / 400
  let yoe := y1 - era * 400
  let mp := (m + 9) % 12
  let doy := (153 * mp + 2) / 5 + d - 1
  let doe := yoe * 365 + yoe / 4 - yoe / 100 + doy
  era * 146097 + doe - 719468

/-- Parse `YYYY-MM-DD` or `YYYY-MM-DDTHH:MM:SS.mmmZ` (both interpreted as UTC
by JavaScript) into epoch milliseconds. -/
def parseDateMs (s : JStr) : Option Int :=
  match s with
  | [y1, y2, y3, y4, 45, mo1, mo2, 45, d1, d2] =>
      if [y1, y2, y3, y4, mo1, mo2, d1, d2].all isDigitCp then
        some (daysFromCivil (digitsVal [y1, y2, y3, y4]) (digitsVal [mo1, mo2])
            (digitsVal [d1, d2]) * 86400000)
      else none
  | [y1, y2, y3, y4, 45, mo1, mo2, 45, d1, d2, 84, h1, h2, 58, mi1, mi2, 58,
     s1, s2, 46, ms1, ms2, ms3, 90] =>
      if [y1, y2, y3, y4, mo1, mo2, d1, d2, h1, h2, mi1, mi2, s1, s2, ms1, ms2,
          ms3].all isDigitCp then
        some (daysFromCivil (digitsVal [y1, y2, y3, y4]) (digitsVal [mo1, mo2])
              (digitsVal [d1, d2]) * 86400000
            + digitsVal [h1, h2] * 3600000 + digitsVal [mi1, mi2] * 60000
            + digitsVal [s1, s2] * 1000 + digitsVal [ms1, ms2, ms3])
      else none
  | _ => none

/-- `new Date('2024-01-01').getTime()`, the app-creation floor used by
`checkTimeConsistency`. -/
def appCreationMs : Int := 1704067200000

/-! ### Validation engine (`validation.ts`) -/

/-- `LicenseStatus` from `types.ts`. -/
inductive LicenseStatus where
  | unknown
  | trial
  | licensed
  | expired
  | tampered
deriving DecidableEq

/-- `ValidationResult` from `types.ts`. -/
structure ValidationResult where
  status : LicenseStatus
  integrityScore : Int
  trialStartDate : Option JStr
  daysRemaining : Option Int
  licenseKey : Option JStr
  errors : List JStr
deriving DecidableEq

/-- The environment a full validation runs in: the live device identity, the
package identity check outcome, the storage contents read, the current clock
(as ISO string and epoch milliseconds), which writes would fail, and the
module-level cache on entry. -/
structure ValidationEnv where
  deviceFingerprint : JStr
  packageIdOk : Bool
  storage : StorageReadResult
  nowISO : JStr
  nowMs : Int
  writeEnv : WriteEnv
  cache : Option ValidationResult
deriving DecidableEq

/-- What a full validation produced: the returned result, the storage contents
after any writes, the list of payloads passed to `writeToAllLocations`, and
the cache on exit. -/
structure FullOutcome where
  result : ValidationResult
  storageAfter : StorageReadResult
  writes : List SignedLicenseData
  cache : Option ValidationResult
deriving DecidableEq

/-- `checkTimeConsistency` from `validation.ts`.  A `trialStartDate` that does
not parse gives `NaN`, whose comparisons are all false, so the check passes;
the parsed cases mirror the two rejections. -/
def checkTimeConsistency (data : SignedLicenseData) (nowMs : Int) : Bool × JStr :=
  match parseDateMs data.payload.trialStartDate with
  | none => (true, strLit "")
  | some t =>
      if t > nowMs + MAX_TIME_DRIFT_MS then
        (false, strLit "Trial start date is in the future")
      else if t < appCreationMs then
        (false, strLit "Trial start date is before app creation")
      else (true, strLit "")

/-- `determineLicenseStatus` from `validation.ts`.  `if (data.payload.licenseKey)`
is truthy only for a present, non-empty key.  In the trial computation an
unparseable start date makes `daysRemaining` `NaN`; `NaN > 0` is false, so the
code falls through to `expired` with `daysRemaining = 0`. -/
def determineLicenseStatus (data : SignedLicenseData) (nowMs : Int) :
    LicenseStatus × Option Int :=
  let licensedCheck : Bool :=
    match data.payload.licenseKey with
    | some k => decide (k ≠ []) && validateLicenseKey k data.payload.deviceFingerprint
    | none => false
  if licensedCheck then (LicenseStatus.licensed, none)
  else
    match parseDateMs data.payload.trialStartDate with
    | none => (LicenseStatus.expired, some 0)
    | some t =>
        let daysSinceStart := Int.fdiv (nowMs - t) 86400000
        let daysRemaining := TRIAL_DURATION_DAYS - daysSinceStart
        if daysRemaining > 0 then (LicenseStatus.trial, some daysRemaining)
        else (LicenseStatus.expired, some 0)

/-- `startNewTrial` from `validation.ts`: sign a fresh payload for the live
identity with no license key, write it everywhere, return and cache a clean
trial result. -/
def startNewTrial (env : ValidationEnv) : Except JStr FullOutcome :=
  let signedData := createSignedLicenseData env.nowISO env.deviceFingerprint none
  match writeToAllLocations env.writeEnv env.storage signedData with
  | Except.error e => Except.error e
  | Except.ok st =>
      let result : ValidationResult :=
        { status := LicenseStatus.trial
          integrityScore := 100
          trialStartDate := some env.nowISO
          daysRemaining := some TRIAL_DURATION_DAYS
          licenseKey := none
          errors := [] }
      Except.ok ⟨result, st, [signedData], some result⟩

/-- Error message for a partial location match. -/
def locationMatchError (n : Nat) : JStr :=
  strLit "Only " ++ natToJStr n ++ strLit "/3 storage locations match"

/-- `performFullValidation` from `validation.ts`, step for step: package
check, consensus count, trusted-data selection, signature verification with
the tampered short-circuit, device-identity comparison, version and clock
checks, opportunistic repair, and final status determination.  The returned
outcome also records the storage state, writes and cache. -/
def performFullValidation (env : ValidationEnv) : Except JStr FullOutcome :=
  let errors0 : List JStr := if env.packageIdOk then [] else [strLit "Package ID mismatch"]
  let score0 : Int := if env.packageIdOk then 100 else 70
  let locationCount := countMatchingLocations env.storage
  if locationCount = 0 then startNewTrial env
  else
    let errors1 := if locationCount < 3 then errors0 ++ [locationMatchError locationCount] else errors0
    let score1 := if locationCount < 3 then score0 - (3 - (locationCount : Int)) * 15 else score0
    match getMostTrustedData env.storage with
    | none => startNewTrial env
    | some trustedData =>
        let sigOk := verifySignature trustedData env.deviceFingerprint
        let errors2 := if sigOk then errors1 else errors1 ++ [strLit "Signature verification failed"]
        let score2 := if sigOk then score1 else score1 - 40
        if ¬ sigOk = true ∧ score2 < INTEGRITY_SCORE_THRESHOLD then
          Except.ok
            ⟨{ status := LicenseStatus.tampered
               integrityScore := score2
               trialStartDate := none
               daysRemaining := none
               licenseKey := none
               errors := errors2 }, env.storage, [], env.cache⟩
        else if trustedData.payload.deviceFingerprint ≠ env.deviceFingerprint then
          startNewTrial env
        else
          let errors3 := if trustedData.payload.version ≠ LICENSE_DATA_VERSION then
              errors2 ++ [strLit "Data version mismatch"] else errors2
          let score3 := if trustedData.payload.version ≠ LICENSE_DATA_VERSION then
              score2 - 10 else score2
          let timeCheck := checkTimeConsistency trustedData env.nowMs
          let errors4 := if timeCheck.1 then errors3 else errors3 ++ [timeCheck.2]
          let score4 := if timeCheck.1 then score3 else score3 - 20
          let repaired :=
            if locationCount < 3 then
              repairStorage env.writeEnv env.storage trustedData
            else Except.ok env.storage
          match repaired with
          | Except.error e => Except.error e
          | Except.ok storageAfter =>
              let sd := determineLicenseStatus trustedData env.nowMs
              let result : ValidationResult :=
                { status := sd.1
                  integrityScore := score4
                  trialStartDate := some trustedData.payload.trialStartDate
                  daysRemaining := sd.2
                  licenseKey := trustedData.payload.licenseKey
                  errors := errors4 }
              Except.ok
                ⟨result, storageAfter,
                 if locationCount < 3 then [trustedData] else [], some result⟩

/-- What an activation attempt produced: the returned `{success, error}`
record, whether the storage locations were read, the payloads written, the
storage contents after the attempt, and the cache on exit. -/
structure ActivationOutcome where
  success : Bool
  error : Option JStr
  storageRead : Bool
  writes : List SignedLicenseData
  storageAfter : StorageReadResult
  cache : Option ValidationResult
deriving DecidableEq

/-- `activateLicenseKey` from `validation.ts`: validate the key against the
live identity; on failure return immediately without touching storage or the
cache; on success re-sign a payload that keeps the trusted `trialStartDate`
(JavaScript `||` falls back to the current time when it is absent or the empty
string), write it everywhere, and clear the cache. -/
def activateLicenseKey (env : ValidationEnv) (licenseKey : JStr) :
    Except JStr ActivationOutcome :=
  if validateLicenseKey licenseKey env.deviceFingerprint = false then
    Except.ok
      { success := false
        error := some (strLit "Invalid license key")
        storageRead := false
        writes := []
        storageAfter := env.storage
        cache := env.cache }
  else
    let currentData := getMostTrustedData env.storage
    let trialStartDate :=
      match currentData with
      | some d => if d.payload.trialStartDate = [] then env.nowISO else d.payload.trialStartDate
      | none => env.nowISO
    let signedData := createSignedLicenseData trialStartDate env.deviceFingerprint (some licenseKey)
    match writeToAllLocations env.writeEnv env.storage signedData with
    | Except.error e => Except.error e
    | Except.ok st =>
        Except.ok
          { success := true
            error := none
            storageRead := true
            writes := [signedData]
            storageAfter := st
            cache := none }

/-- The `ValidationResult` a fresh trial produces. -/
def freshTrialValidationResult (nowISO : JStr) : ValidationResult :=
  { status := LicenseStatus.trial
    integrityScore := 100
    trialStartDate := some nowISO
    daysRemaining := some TRIAL_DURATION_DAYS
    licenseKey := none
    errors := [] }

/-- The full outcome of `startNewTrial` when all writes succeed: a clean trial
result, the freshly signed key-less payload in every location, exactly that one
write, and the result cached. -/
def freshTrialOutcome (nowISO deviceFingerprint : JStr) : FullOutcome :=
  let d := createSignedLicenseData nowISO deviceFingerprint none
  ⟨freshTrialValidationResult nowISO, ⟨some d, some d, some d⟩, [d],
   some (freshTrialValidationResult nowISO)⟩

/-! ### Concrete instances used by counterexamples and witnesses -/

/-- A live device identity used in concrete scenarios. -/
def fpA : JStr := strLit "deviceA"

/-- A well-formed payload for `fpA` with no license key. -/
def basePayloadA : LicensePayload := ⟨strLit "2025-06-01T00:00:00.000Z", fpA, none, 1⟩

/-- The stored blob of the tamper scenario: `basePayloadA` with its
`licenseKey` field overwritten, still carrying the signature computed for the
original payload, so the stored signature differs from the one recomputed for
the live identity. -/
def tamperedDataA : SignedLicenseData :=
  ⟨{ basePayloadA with licenseKey := some (strLit "HACKEDKEY") }, signPayload basePayloadA fpA⟩

/-- The tamper-scenario environment: package check passes, all three locations
hold `tamperedDataA`, the clock reads 2025-06-05 noon UTC. -/
def tamperEnv : ValidationEnv :=
  ⟨fpA, true, ⟨some tamperedDataA, some tamperedDataA, some tamperedDataA⟩,
   strLit "2025-06-05T12:00:00.000Z", 1749124800000, allWritesOk, none⟩

/-- Like `tamperEnv` but with a failing package identity check. -/
def tamperEnvPkgFail : ValidationEnv := { tamperEnv with packageIdOk := false }

/-- A stored blob with signature "a". -/
def blobSigA : SignedLicenseData := ⟨⟨strLit "t", strLit "f", none, 1⟩, strLit "a"⟩

/-- A stored blob with signature "b". -/
def blobSigB : SignedLicenseData := ⟨⟨strLit "t", strLit "f", none, 1⟩, strLit "b"⟩

/-- A 12-character alphanumeric device identity. -/
def fpHex12 : JStr := strLit "abcdef123456"

/-- The license key the offline tool would issue for `fpHex12`. -/
def keyHex12 : JStr := generateLicenseKey fpHex12

/-- Trusted data whose `trialStartDate` is the empty string. -/
def emptyDateData : SignedLicenseData := ⟨⟨[], fpHex12, none, 1⟩, strLit "s"⟩

/-- Activation environment in which only the first location holds
`emptyDateData`. -/
def emptyDateEnv : ValidationEnv :=
  ⟨fpHex12, true, ⟨some emptyDateData, none, none⟩,
   strLit "2025-06-05T12:00:00.000Z", 1749124800000, allWritesOk, none⟩

/-- Trusted data with a non-empty `trialStartDate`, used to witness the
amended activation claim. -/
def trialDay5Data : SignedLicenseData :=
  ⟨⟨strLit "2025-06-01T00:00:00.000Z", fpHex12, none, 1⟩, strLit "s"⟩

/-- Activation environment holding `trialDay5Data` in the first location. -/
def trialDay5Env : ValidationEnv :=
  ⟨fpHex12, true, ⟨some trialDay5Data, none, none⟩,
   strLit "2025-06-05T12:00:00.000Z", 1749124800000, allWritesOk, none⟩

/-- A fresh-install environment: nothing stored anywhere. -/
def freshEnv : ValidationEnv :=
  ⟨fpA, true, ⟨none, none, none⟩, strLit "2025-06-05T12:00:00.000Z",
   1749124800000, allWritesOk, none⟩

/-- A payload validly created and signed for device identity `fpA`. -/
def copiedDataA : SignedLicenseData := createSignedLicenseData (strLit "2025-06-01T00:00:00.000Z") fpA none

/-- The device-copy environment: all locations hold `copiedDataA` (signed for
`fpA`) but the live identity is `deviceB`. -/
def copyEnv : ValidationEnv :=
  ⟨strLit "deviceB", true, ⟨some copiedDataA, some copiedDataA, some copiedDataA⟩,
   strLit "2025-06-05T12:00:00.000Z", 1749124800000, allWritesOk, none⟩

/-- A write environment in which only the sqlite write fails. -/
def oneFailWrites : WriteEnv := ⟨false, true, false⟩

/-- Previous storage contents used in the write witness. -/
def prevStoreEx : StorageReadResult := ⟨none, some blobSigA, none⟩

end BillKhata

namespace BillKhata

/-- Sanity check: the model reproduces the published SHA-256 digest of the
empty string. -/
theorem sha256_empty_vector :
    sha256 (strLit "") =
      strLit "e3b0c44298fc1c149afbf4c8996fb92427ae41e4649b934ca495991b7852b855" := by
  decide

/-- Sanity check: the model reproduces the published SHA-256 digest of
"abc". -/
theorem sha256_abc_vector :
    sha256 (strLit "abc") =
      strLit "ba7816bf8f01cfea414140de5dae2223b00361a396177a9cb410ff61f20015ad" := by
  decide

/-- Sanity check: the spec-side MAC construction reproduces the RFC
HMAC-SHA256 value for key "k", message "m". -/
theorem hmacSha256Spec_km_vector :
    hmacSha256Spec (strLit "k") (strLit "m") =
      strLit "b60090e3052297aeb5a080889ce2fc4bca957e756faeb4df7d31800ca1e771ec" := by
  decide

/-! ### Storage helper lemmas -/

/-- Three identical copies count as three matching locations. -/
theorem countMatchingLocations_allSame (d : SignedLicenseData) :
    countMatchingLocations ⟨some d, some d, some d⟩ = 3 := by
  simp [countMatchingLocations, List.countP_cons]

/-- Three identical copies elect that copy as the trusted data. -/
theorem getMostTrustedData_allSame (d : SignedLicenseData) :
    getMostTrustedData ⟨some d, some d, some d⟩ = some d := by
  simp [getMostTrustedData, buildGroups, addToGroups, pickMajority]

/-- `addToGroups` never returns the empty group list. -/
theorem addToGroups_ne_nil (gs : List (JStr × List SignedLicenseData))
    (d : SignedLicenseData) : addToGroups gs d ≠ [] := by
  cases gs with
  | nil => simp [addToGroups]
  | cons p rest =>
      obtain ⟨sig, g⟩ := p
      simp only [addToGroups]
      split <;> simp

/-- `addToGroups` keeps every group non-empty. -/
theorem addToGroups_groups_ne_nil (gs : List (JStr × List SignedLicenseData))
    (d : SignedLicenseData) (h : ∀ p ∈ gs, p.2 ≠ []) :
    ∀ p ∈ addToGroups gs d, p.2 ≠ [] := by
  induction gs with
  | nil => simp [addToGroups]
  | cons q rest ih =>
      obtain ⟨sig, g⟩ := q
      intro p hp
      simp only [addToGroups] at hp
      split at hp
      · rcases List.mem_cons.mp hp with h1 | h1
        · subst h1; simp
        · exact h p (List.mem_cons_of_mem _ h1)
      · rcases List.mem_cons.mp hp with h1 | h1
        · subst h1; exact h ⟨sig, g⟩ (List.mem_cons_self _ _)
        · exact ih (fun q hq => h q (List.mem_cons_of_mem _ hq)) p h1

/-- Folding `addToGroups` over values preserves non-emptiness of the group
list. -/
theorem foldl_addToGroups_ne_nil (vs : List SignedLicenseData)
    (gs : List (JStr × List SignedLicenseData)) (h : gs ≠ []) :
    vs.foldl addToGroups gs ≠ [] := by
  induction vs generalizing gs with
  | nil => simpa using h
  | cons v rest ih => exact ih (addToGroups gs v) (addToGroups_ne_nil gs v)

/-- Folding `addToGroups` over values keeps every group non-empty. -/
theorem foldl_addToGroups_groups_ne_nil (vs : List SignedLicenseData)
    (gs : List (JStr × List SignedLicenseData)) (h : ∀ p ∈ gs, p.2 ≠ []) :
    ∀ p ∈ vs.foldl addToGroups gs, p.2 ≠ [] := by
  induction vs generalizing gs with
  | nil => simpa using h
  | cons v rest ih =>
      exact ih (addToGroups gs v) (addToGroups_groups_ne_nil gs v h)

/-- `pickMajority` keeps a present candidate present. -/
theorem pickMajority_isSome_of_isSome (gs : List (JStr × List SignedLicenseData)) :
    ∀ mc best, best.isSome = true → (pickMajority gs mc best).isSome = true := by
  induction gs with
  | nil => intro mc best h; simpa [pickMajority] using h
  | cons p rest ih =>
      intro mc best h
      obtain ⟨sig, g⟩ := p
      simp only [pickMajority]
      split
      · rename_i hlt
        apply ih
        cases g with
        | nil => simp at hlt
        | cons x xs => simp
      · exact ih mc best h

/-- Starting from zero with a non-empty list of non-empty groups,
`pickMajority` elects some member. -/
theorem pickMajority_isSome (gs : List (JStr × List SignedLicenseData))
    (hne : gs ≠ []) (hall : ∀ p ∈ gs, p.2 ≠ []) :
    (pickMajority gs 0 none).isSome = true := by
  cases gs with
  | nil => exact absurd rfl hne
  | cons p rest =>
      obtain ⟨sig, g⟩ := p
      have hg : g ≠ [] := hall ⟨sig, g⟩ (List.mem_cons_self _ _)
      have hlen : g.length > 0 := List.length_pos.mpr hg
      simp only [pickMajority, if_pos hlen]
      apply pickMajority_isSome_of_isSome
      cases g with
      | nil => exact absurd rfl hg
      | cons x xs => simp

/-- The match `getMostTrustedData` performs on the non-null values, exposed
for rewriting. -/
theorem getMostTrustedData_eq_match (r : StorageReadResult) :
    getMostTrustedData r =
      match [r.asyncStorage, r.sqlite, r.fileSystem].filterMap id with
      | [] => none
      | [v] => some v
      | v1 :: v2 :: rest => pickMajority (buildGroups (v1 :: v2 :: rest)) 0 none := rfl

/-- Whenever any location is non-null, `getMostTrustedData` elects a value. -/
theorem getMostTrustedData_isSome (r : StorageReadResult)
    (h : [r.asyncStorage, r.sqlite, r.fileSystem].filterMap id ≠ []) :
    (getMostTrustedData r).isSome = true := by
  rw [getMostTrustedData_eq_match]
  rcases hv : [r.asyncStorage, r.sqlite, r.fileSystem].filterMap id with _ | ⟨v1, _ | ⟨v2, rest⟩⟩
  · exact absurd hv h
  · simp
  · have hne : buildGroups (v1 :: v2 :: rest) ≠ [] := by
      show (v2 :: rest).foldl addToGroups (addToGroups [] v1) ≠ []
      exact foldl_addToGroups_ne_nil _ _ (addToGroups_ne_nil [] v1)
    have hall : ∀ p ∈ buildGroups (v1 :: v2 :: rest), p.2 ≠ [] := by
      unfold buildGroups
      exact foldl_addToGroups_groups_ne_nil _ _ (by simp)
    simpa using pickMajority_isSome _ hne hall

/-! ### Claim C2: consensus count -/

/-- C2 counterexample: with the minority value (signature "a") in the first
location and the majority (signature "b", a group of two) behind it,
`countMatchingLocations` returns 1, not the largest-group size 2. -/
theorem countMatchingLocations_minority_first :
    countMatchingLocations ⟨some blobSigA, some blobSigB, some blobSigB⟩ = 1 ∧
      ¬ countMatchingLocations ⟨some blobSigA, some blobSigB, some blobSigB⟩ = 2 := by
  decide

/-- C2 amended: `countMatchingLocations` returns the number of non-null
location values whose signature equals that of the first non-null value in the
fixed asyncStorage, sqlite, fileSystem order (0 when all three are absent) —
the largest-group size only when the first non-null value belongs to a largest
group. -/
theorem countMatchingLocations_eq_firstSigGroupSize (r : StorageReadResult) :
    countMatchingLocations r = firstSigGroupSize r := by
  obtain ⟨a, s, f⟩ := r
  cases a <;> cases s <;> cases f <;>
    simp [countMatchingLocations, firstSigGroupSize, List.countP_cons] <;> omega

/-! ### Claim C9: independent location writes -/

/-- C9: `writeToAllLocations` raises an error exactly when all three location
writes fail; otherwise it returns normally and every location whose write
succeeded holds the new data (a failed location keeps its previous
content). -/
theorem writeToAllLocations_spec (env : WriteEnv) (prev : StorageReadResult)
    (data : SignedLicenseData) :
    ((writeToAllLocations env prev data).isOk = false ↔
        env.asyncFails = true ∧ env.sqliteFails = true ∧ env.fsFails = true) ∧
      (∀ st, writeToAllLocations env prev data = Except.ok st →
        (env.asyncFails = false → st.asyncStorage = some data) ∧
        (env.sqliteFails = false → st.sqlite = some data) ∧
        (env.fsFails = false → st.fileSystem = some data) ∧
        (env.asyncFails = true → st.asyncStorage = prev.asyncStorage) ∧
        (env.sqliteFails = true → st.sqlite = prev.sqlite) ∧
        (env.fsFails = true → st.fileSystem = prev.fileSystem)) := by
  obtain ⟨fa, fs, ff⟩ := env
  constructor
  · cases fa <;> cases fs <;> cases ff <;> simp [writeToAllLocations, Except.isOk, Except.toBool]
  · intro st hst
    cases fa <;> cases fs <;> cases ff <;>
      simp [writeToAllLocations] at hst <;> simp [← hst]

/-- C9 witness: with only the sqlite write failing, the call returns normally,
the surviving locations hold the new data, and the failed one keeps its
previous content. -/
theorem writeToAllLocations_spec_witness :
    (writeToAllLocations oneFailWrites prevStoreEx blobSigB).isOk = true ∧
      (writeToAllLocations oneFailWrites prevStoreEx blobSigB =
          Except.ok ⟨some blobSigB, some blobSigA, some blobSigB⟩) ∧
      (some blobSigB = some blobSigB ∧ some blobSigA = prevStoreEx.sqlite) := by
  refine ⟨by decide, by decide, ?_, ?_⟩
  · exact ((writeToAllLocations_spec oneFailWrites prevStoreEx blobSigB).2
      ⟨some blobSigB, some blobSigA, some blobSigB⟩ (by decide)).1 (by decide)
  · exact (((writeToAllLocations_spec oneFailWrites prevStoreEx blobSigB).2
      ⟨some blobSigB, some blobSigA, some blobSigB⟩ (by decide)).2.2.2.2).1 (by decide)

/-! ### Claim C8: activation failure path -/

/-- C8: when the key does not validate against the live identity,
`activateLicenseKey` returns `{success: false, error: 'Invalid license key'}`
without reading or writing any storage location, leaves the cache unchanged,
and does not throw. -/
theorem activateLicenseKey_invalid (env : ValidationEnv) (licenseKey : JStr)
    (h : validateLicenseKey licenseKey env.deviceFingerprint = false) :
    activateLicenseKey env licenseKey =
      Except.ok
        { success := false
          error := some (strLit "Invalid license key")
          storageRead := false
          writes := []
          storageAfter := env.storage
          cache := env.cache } := by
  simp [activateLicenseKey, h]

/-! ### Claim C10: trusted-data totality -/

/-- C10: `getMostTrustedData` returns `null` exactly when all three locations
are null, which is exactly when `countMatchingLocations` returns 0; whenever
the count is positive a trusted value exists, so the fallback branch of
`performFullValidation` that starts a new trial on a null trusted value with a
positive count cannot fire. -/
theorem getMostTrustedData_none_iff (r : StorageReadResult) :
    (getMostTrustedData r = none ↔
        r.asyncStorage = none ∧ r.sqlite = none ∧ r.fileSystem = none)
    ∧ (countMatchingLocations r = 0 ↔
        r.asyncStorage = none ∧ r.sqlite = none ∧ r.fileSystem = none)
    ∧ (countMatchingLocations r ≠ 0 → (getMostTrustedData r).isSome = true) := by
  have hfm : [r.asyncStorage, r.sqlite, r.fileSystem].filterMap id = [] ↔
      r.asyncStorage = none ∧ r.sqlite = none ∧ r.fileSystem = none := by
    obtain ⟨a, s, f⟩ := r
    cases a <;> cases s <;> cases f <;> simp
  have hcount : countMatchingLocations r = 0 ↔
      r.asyncStorage = none ∧ r.sqlite = none ∧ r.fileSystem = none := by
    obtain ⟨a, s, f⟩ := r
    cases a <;> cases s <;> cases f <;> simp [countMatchingLocations]
  refine ⟨⟨fun hnone => ?_, fun hall => ?_⟩, hcount, fun hne => ?_⟩
  · by_contra hnot
    have h1 : [r.asyncStorage, r.sqlite, r.fileSystem].filterMap id ≠ [] :=
      fun hc => hnot (hfm.mp hc)
    have h2 := getMostTrustedData_isSome r h1
    rw [hnone] at h2
    simp at h2
  · rw [getMostTrustedData_eq_match, hfm.mpr hall]
  · exact getMostTrustedData_isSome r (fun hc => hne (hcount.mpr (hfm.mp hc)))

/-- C10 witness: a single stored value gives a positive count and an elected
trusted value. -/
theorem getMostTrustedData_none_iff_witness :
    countMatchingLocations ⟨some blobSigA, none, none⟩ ≠ 0 ∧
      (getMostTrustedData ⟨some blobSigA, none, none⟩).isSome = true :=
  ⟨by decide, (getMostTrustedData_none_iff ⟨some blobSigA, none, none⟩).2.2 (by decide)⟩

/-! ### Claim C5: fresh install -/

/-- C5: with nothing stored anywhere and the package check passing, a full
validation starts a new trial: status `trial`, score 100, 14 days remaining,
no license key, no errors, and the freshly signed key-less payload with
`trialStartDate = now` written to all three locations. -/
theorem performFullValidation_freshInstall (env : ValidationEnv)
    (hst : env.storage = ⟨none, none, none⟩)
    (hpkg : env.packageIdOk = true)
    (hw : env.writeEnv = allWritesOk) :
    performFullValidation env =
      Except.ok (freshTrialOutcome env.nowISO env.deviceFingerprint) := by
  simp [performFullValidation, hst, hw, countMatchingLocations, startNewTrial,
    writeToAllLocations, allWritesOk, freshTrialOutcome, freshTrialValidationResult]

/-- C5 witness: the fresh-install environment takes the fresh-trial path. -/
theorem performFullValidation_freshInstall_witness :
    (freshEnv.storage = ⟨none, none, none⟩ ∧ freshEnv.packageIdOk = true ∧
        freshEnv.writeEnv = allWritesOk) ∧
      performFullValidation freshEnv =
        Except.ok (freshTrialOutcome freshEnv.nowISO freshEnv.deviceFingerprint) :=
  ⟨⟨rfl, rfl, rfl⟩, performFullValidation_freshInstall freshEnv rfl rfl rfl⟩

/-! ### Claim C3: device copy resets the trial -/

/-- C3: when all three locations hold one identical payload validly signed for
device identity A, the package check passes, and the live identity differs
from A, full validation starts a new trial bound to the live identity —
status `trial` with the full 14 days, nothing inherited from A's payload, and
a freshly signed payload for the live identity written to all locations. -/
theorem performFullValidation_deviceCopy (env : ValidationEnv)
    (dataA : SignedLicenseData) (idA : JStr)
    (hst : env.storage = ⟨some dataA, some dataA, some dataA⟩)
    (hpkg : env.packageIdOk = true)
    (hfpA : dataA.payload.deviceFingerprint = idA)
    (hsig : dataA.signature = signPayload dataA.payload idA)
    (hne : idA ≠ env.deviceFingerprint)
    (hw : env.writeEnv = allWritesOk) :
    performFullValidation env =
      Except.ok (freshTrialOutcome env.nowISO env.deviceFingerprint) := by
  cases hv : verifySignature dataA env.deviceFingerprint <;>
    simp [performFullValidation, hst, hpkg, hw, hv, hfpA, hne,
      countMatchingLocations_allSame, getMostTrustedData_allSame,
      INTEGRITY_SCORE_THRESHOLD, startNewTrial, writeToAllLocations, allWritesOk,
      freshTrialOutcome, freshTrialValidationResult]

/-- C3 witness: `copiedDataA` is validly signed for `fpA` but loaded with live
identity `deviceB`, and validation restarts the trial for `deviceB`. -/
theorem performFullValidation_deviceCopy_witness :
    (copyEnv.storage = ⟨some copiedDataA, some copiedDataA, some copiedDataA⟩ ∧
        copiedDataA.payload.deviceFingerprint = fpA ∧
        copiedDataA.signature = signPayload copiedDataA.payload fpA ∧
        fpA ≠ copyEnv.deviceFingerprint) ∧
      performFullValidation copyEnv =
        Except.ok (freshTrialOutcome copyEnv.nowISO copyEnv.deviceFingerprint) :=
  ⟨⟨rfl, rfl, rfl, by decide⟩,
   performFullValidation_deviceCopy copyEnv copiedDataA fpA rfl rfl rfl rfl
     (by decide) rfl⟩

/-- C8 witness: the three-character key "BAD" fails validation for `fpA`, and
the failure outcome is exactly the untouched one. -/
theorem activateLicenseKey_invalid_witness :
    validateLicenseKey (strLit "BAD") fpA = false ∧
      activateLicenseKey freshEnv (strLit "BAD") =
        Except.ok
          { success := false
            error := some (strLit "Invalid license key")
            storageRead := false
            writes := []
            storageAfter := freshEnv.storage
            cache := freshEnv.cache } := by
  exact ⟨by decide, activateLicenseKey_invalid freshEnv (strLit "BAD") (by decide)⟩

/-! ### Claim C1: tamper scenario -/

/-- C1 counterexample: with the package check passing and all three locations
holding the same blob whose `licenseKey` was overwritten without re-signing,
signature verification does fail, but only 40 points are deducted: the score
is 60, which is not below the threshold 50, and the returned status is
`trial`, not `tampered`. -/
theorem tamperScenario_not_tampered :
    verifySignature tamperedDataA fpA = false ∧
      (performFullValidation tamperEnv).toOption.map
          (fun o => (o.result.status, o.result.integrityScore)) =
        some (LicenseStatus.trial, 60) := by
  decide

/-- C1 amended: a failed signature check deducts 40 points and short-circuits
to `tampered` only if the score then sits below the threshold 50; with all
three locations consistent this requires a further deduction, e.g. a failing
package identity check, which leaves score 30 and status `tampered` with both
errors reported. -/
theorem performFullValidation_tampered_lowScore (env : ValidationEnv)
    (dataT : SignedLicenseData)
    (hst : env.storage = ⟨some dataT, some dataT, some dataT⟩)
    (hpkg : env.packageIdOk = false)
    (hsig : verifySignature dataT env.deviceFingerprint = false) :
    performFullValidation env =
      Except.ok
        ⟨{ status := LicenseStatus.tampered
           integrityScore := 30
           trialStartDate := none
           daysRemaining := none
           licenseKey := none
           errors := [strLit "Package ID mismatch",
                      strLit "Signature verification failed"] },
         env.storage, [], env.cache⟩ := by
  simp [performFullValidation, hst, hpkg, hsig, countMatchingLocations_allSame,
    getMostTrustedData_allSame, INTEGRITY_SCORE_THRESHOLD]

/-- C1 witness: the tampered blob under a failing package check yields the
`tampered` short-circuit with score 30. -/
theorem performFullValidation_tampered_lowScore_witness :
    (tamperEnvPkgFail.packageIdOk = false ∧
        verifySignature tamperedDataA tamperEnvPkgFail.deviceFingerprint = false) ∧
      performFullValidation tamperEnvPkgFail =
        Except.ok
          ⟨{ status := LicenseStatus.tampered
             integrityScore := 30
             trialStartDate := none
             daysRemaining := none
             licenseKey := none
             errors := [strLit "Package ID mismatch",
                        strLit "Signature verification failed"] },
           tamperEnvPkgFail.storage, [], tamperEnvPkgFail.cache⟩ :=
  ⟨⟨rfl, by decide⟩,
   performFullValidation_tampered_lowScore tamperEnvPkgFail tamperedDataA rfl rfl
     (by decide)⟩

/-! ### Claim C7: activation preserves the trial start -/

/-- C7 counterexample: when the trusted data's `trialStartDate` is the empty
string, a successful activation persists the current time instead of the
trusted value (JavaScript `||` treats the empty string as absent), so the
persisted `trialStartDate` does not equal the previously trusted one. -/
theorem activateLicenseKey_emptyTrialStart :
    getMostTrustedData emptyDateEnv.storage = some emptyDateData ∧
      (activateLicenseKey emptyDateEnv keyHex12).toOption.map
          (fun o => (o.success, o.writes.map (fun d => d.payload.trialStartDate))) =
        some (true, [strLit "2025-06-05T12:00:00.000Z"]) ∧
      strLit "2025-06-05T12:00:00.000Z" ≠ emptyDateData.payload.trialStartDate := by
  refine ⟨by decide, by decide, by decide⟩

/-- C7 amended: when activation succeeds, the trusted data's `trialStartDate`
is non-empty, and the writes go through, the persisted payload keeps that
`trialStartDate`, carries the activated key, is written to all locations, and
the cache is cleared. -/
theorem activateLicenseKey_preservesTrialStart (env : ValidationEnv)
    (cur : SignedLicenseData) (licenseKey : JStr)
    (hv : validateLicenseKey licenseKey env.deviceFingerprint = true)
    (hcur : getMostTrustedData env.storage = some cur)
    (hne : cur.payload.trialStartDate ≠ [])
    (hw : env.writeEnv = allWritesOk) :
    activateLicenseKey env licenseKey =
      Except.ok
        { success := true
          error := none
          storageRead := true
          writes := [createSignedLicenseData cur.payload.trialStartDate
            env.deviceFingerprint (some licenseKey)]
          storageAfter :=
            ⟨some (createSignedLicenseData cur.payload.trialStartDate
                env.deviceFingerprint (some licenseKey)),
             some (createSignedLicenseData cur.payload.trialStartDate
                env.deviceFingerprint (some licenseKey)),
             some (createSignedLicenseData cur.payload.trialStartDate
                env.deviceFingerprint (some licenseKey))⟩
          cache := none } := by
  simp [activateLicenseKey, hv, hcur, hne, hw, writeToAllLocations, allWritesOk]

/-- C7 witness: activating the key issued for `fpHex12` at trial day 5 keeps
the original `trialStartDate` in the persisted payload. -/
theorem activateLicenseKey_preservesTrialStart_witness :
    (validateLicenseKey keyHex12 trialDay5Env.deviceFingerprint = true ∧
        getMostTrustedData trialDay5Env.storage = some trialDay5Data ∧
        trialDay5Data.payload.trialStartDate ≠ []) ∧
      activateLicenseKey trialDay5Env keyHex12 =
        Except.ok
          { success := true
            error := none
            storageRead := true
            writes := [createSignedLicenseData trialDay5Data.payload.trialStartDate
              trialDay5Env.deviceFingerprint (some keyHex12)]
            storageAfter :=
              ⟨some (createSignedLicenseData trialDay5Data.payload.trialStartDate
                  trialDay5Env.deviceFingerprint (some keyHex12)),
               some (createSignedLicenseData trialDay5Data.payload.trialStartDate
                  trialDay5Env.deviceFingerprint (some keyHex12)),
               some (createSignedLicenseData trialDay5Data.payload.trialStartDate
                  trialDay5Env.deviceFingerprint (some keyHex12))⟩
            cache := none } :=
  ⟨⟨by decide, by decide, by decide⟩,
   activateLicenseKey_preservesTrialStart trialDay5Env trialDay5Data keyHex12
     (by decide) (by decide) (by decide) rfl⟩

/-! ### Claim C4: the MAC is not the byte-level nested construction -/

/-- C4: at key "k" and message "m" the code's `hmacSha256` and the
specification's byte-level nested construction disagree: the code UTF-8
re-encodes the char-code string of the inner digest (expanding every digest
byte at or above 0x80 into two bytes) before the outer hash, so its outer
input differs from `(key XOR opad) || innerDigest`. -/
theorem hmacSha256_ne_hmacSha256Spec :
    hmacSha256 (strLit "k") (strLit "m") =
        strLit "365376d9bad7480c06e0b459761d3cd1058f785fca40d0e6662a81f5a775ed21" ∧
      hmacSha256Spec (strLit "k") (strLit "m") =
        strLit "b60090e3052297aeb5a080889ce2fc4bca957e756faeb4df7d31800ca1e771ec" ∧
      hmacSha256 (strLit "k") (strLit "m") ≠ hmacSha256Spec (strLit "k") (strLit "m") := by
  refine ⟨by decide, by decide, ?_⟩
  intro h
  have h1 : hmacSha256 (strLit "k") (strLit "m") =
      strLit "365376d9bad7480c06e0b459761d3cd1058f785fca40d0e6662a81f5a775ed21" := by decide
  have h2 : hmacSha256Spec (strLit "k") (strLit "m") =
      strLit "b60090e3052297aeb5a080889ce2fc4bca957e756faeb4df7d31800ca1e771ec" := by decide
  rw [h1, h2] at h
  exact absurd h (by decide)

/-! ### Claim C6: key codec round-trip -/

/-- A map that fixes every member of a list fixes the list. -/
theorem map_id_of_fixed {f : Nat → Nat} {l : List Nat} (h : ∀ c ∈ l, f c = c) :
    l.map f = l := by
  induction l with
  | nil => rfl
  | cons c rest ih =>
      simp only [List.map_cons, h c (List.mem_cons_self c rest)]
      rw [ih (fun x hx => h x (List.mem_cons_of_mem c hx))]

/-- Pointwise classification distributes over append. -/
theorem mem_append_class {P : Nat → Prop} {l1 l2 : List Nat}
    (h1 : ∀ c ∈ l1, P c) (h2 : ∀ c ∈ l2, P c) : ∀ c ∈ l1 ++ l2, P c := by
  intro c hc
  rcases List.mem_append.mp hc with h | h
  · exact h1 c h
  · exact h2 c h

/-- Uppercasing an ASCII alphanumeric character yields an uppercase
alphanumeric character. -/
theorem upperChar_of_alnum {c : Nat}
    (h : (48 ≤ c ∧ c ≤ 57) ∨ (65 ≤ c ∧ c ≤ 90) ∨ (97 ≤ c ∧ c ≤ 122)) :
    (48 ≤ upperChar c ∧ upperChar c ≤ 57) ∨ (65 ≤ upperChar c ∧ upperChar c ≤ 90) := by
  unfold upperChar
  split <;> omega

/-- Uppercasing a lowercase hex character yields an uppercase alphanumeric
character. -/
theorem upperChar_of_hexLower {c : Nat}
    (h : (48 ≤ c ∧ c ≤ 57) ∨ (97 ≤ c ∧ c ≤ 102)) :
    (48 ≤ upperChar c ∧ upperChar c ≤ 57) ∨ (65 ≤ upperChar c ∧ upperChar c ≤ 90) := by
  unfold upperChar
  split <;> omega

/-- Uppercasing fixes digits and uppercase letters. -/
theorem upperChar_fixed {c : Nat} (h : (48 ≤ c ∧ c ≤ 57) ∨ (65 ≤ c ∧ c ≤ 90)) :
    upperChar c = c := by
  unfold upperChar
  split <;> omega

/-- Uppercasing fixes the dash. -/
theorem upperChar_dash : upperChar 45 = 45 := by decide

/-- An uppercase alphanumeric character is in the `[A-Z0-9]` class. -/
theorem isUpperAlnum_of {c : Nat} (h : (48 ≤ c ∧ c ≤ 57) ∨ (65 ≤ c ∧ c ≤ 90)) :
    isUpperAlnum c = true := by
  unfold isUpperAlnum
  exact decide_eq_true (by tauto)

/-- Hex rendering of a nibble is a digit or a lowercase hex letter. -/
theorem hexCharOfNibble_class {n : Nat} (h : n < 16) :
    (48 ≤ hexCharOfNibble n ∧ hexCharOfNibble n ≤ 57) ∨
      (97 ≤ hexCharOfNibble n ∧ hexCharOfNibble n ≤ 102) := by
  unfold hexCharOfNibble
  split <;> omega

/-- Every byte produced by `wordBytes` is below 256. -/
theorem wordBytes_lt (w : Nat) : ∀ b ∈ wordBytes w, b < 256 := by
  intro b hb
  simp [wordBytes] at hb
  omega

/-- Every byte of a SHA-256 digest is below 256. -/
theorem sha256Bytes_lt (msg : List Nat) : ∀ b ∈ sha256Bytes msg, b < 256 := by
  intro b hb
  simp only [sha256Bytes, List.mem_append] at hb
  rcases hb with ((((((hb | hb) | hb) | hb) | hb) | hb) | hb) | hb <;>
    exact wordBytes_lt _ b hb

/-- Hex rendering of sub-256 bytes uses only digits and lowercase hex
letters. -/
theorem hexOfBytes_class (bs : List Nat) (h : ∀ b ∈ bs, b < 256) :
    ∀ c ∈ hexOfBytes bs, (48 ≤ c ∧ c ≤ 57) ∨ (97 ≤ c ∧ c ≤ 102) := by
  intro c hc
  simp only [hexOfBytes, List.mem_flatMap] at hc
  obtain ⟨b, hb, hcb⟩ := hc
  have hblt := h b hb
  simp [byteHex] at hcb
  rcases hcb with h1 | h1 <;> subst h1
  · exact hexCharOfNibble_class (by omega)
  · exact hexCharOfNibble_class (by omega)

/-- Every character of a `sha256` hex string is a digit or a lowercase hex
letter. -/
theorem sha256_chars (msg : JStr) :
    ∀ c ∈ sha256 msg, (48 ≤ c ∧ c ≤ 57) ∨ (97 ≤ c ∧ c ≤ 102) :=
  fun c hc => hexOfBytes_class _ (sha256Bytes_lt _) c hc

/-- Hex rendering doubles the length. -/
theorem hexOfBytes_length (bs : List Nat) : (hexOfBytes bs).length = 2 * bs.length := by
  induction bs with
  | nil => rfl
  | cons b rest ih =>
      simp only [hexOfBytes, List.flatMap_cons, List.length_append] at *
      simp [byteHex, ih]
      omega

/-- A SHA-256 digest has 32 bytes. -/
theorem sha256Bytes_length (msg : List Nat) : (sha256Bytes msg).length = 32 := by
  simp [sha256Bytes, wordBytes]

/-- A `sha256` hex string has 64 characters. -/
theorem sha256_length (msg : JStr) : (sha256 msg).length = 64 := by
  simp [sha256, hexOfBytes_length, sha256Bytes_length]

/-- A checksum has 4 characters. -/
theorem generateChecksum_length (d : JStr) : (generateChecksum d).length = 4 := by
  simp [generateChecksum, toUpperCase, sha256_length]

/-- A checksum consists of uppercase alphanumeric characters. -/
theorem generateChecksum_class (d : JStr) :
    ∀ c ∈ generateChecksum d, (48 ≤ c ∧ c ≤ 57) ∨ (65 ≤ c ∧ c ≤ 90) := by
  intro c hc
  simp only [generateChecksum, toUpperCase, List.mem_map] at hc
  obtain ⟨x, hx, rfl⟩ := hc
  exact upperChar_of_hexLower (sha256_chars _ x (List.mem_of_mem_take hx))

/-- Reassembling a 16-element list from its four 4-element chunks. -/
theorem append_take_chunks (l : List Nat) (h : l.length = 16) :
    l.take 4 ++ ((l.drop 4).take 4 ++ ((l.drop 8).take 4 ++ (l.drop 12).take 4)) = l := by
  have h12 : l.drop 12 = (l.drop 8).drop 4 := (List.drop_drop 4 8 l).symm
  have h8 : l.drop 8 = (l.drop 4).drop 4 := (List.drop_drop 4 4 l).symm
  have ht12 : (l.drop 12).take 4 = l.drop 12 := List.take_of_length_le (by simp [h])
  calc l.take 4 ++ ((l.drop 4).take 4 ++ ((l.drop 8).take 4 ++ (l.drop 12).take 4))
      = l.take 4 ++ ((l.drop 4).take 4 ++ ((l.drop 8).take 4 ++ (l.drop 8).drop 4)) := by
        rw [ht12, h12]
    _ = l.take 4 ++ ((l.drop 4).take 4 ++ (l.drop 4).drop 4) := by
        rw [List.take_append_drop, h8]
    _ = l.take 4 ++ l.drop 4 := by rw [List.take_append_drop]
    _ = l := List.take_append_drop 4 l

/-- C6 counterexample: for the two-character identity "ab" the generated key
collapses to six characters, so validation rejects it: the round-trip fails
for identities shorter than 12 characters. -/
theorem validateLicenseKey_roundTrip_short :
    validateLicenseKey (generateLicenseKey (strLit "ab")) (strLit "ab") = false := by
  decide

/-- C6 amended: for every device identity at least 12 characters long whose
first 12 characters are ASCII alphanumeric, validating the generated key
against the same identity succeeds. -/
theorem validateLicenseKey_roundTrip (idStr : JStr) (hlen : 12 ≤ idStr.length)
    (hchar : ∀ c ∈ idStr.take 12,
      (48 ≤ c ∧ c ≤ 57) ∨ (65 ≤ c ∧ c ≤ 90) ∨ (97 ≤ c ∧ c ≤ 122)) :
    validateLicenseKey (generateLicenseKey idStr) idStr = true := by
  have hDlen : (toUpperCase (idStr.take 12)).length = 12 := by
    simp [toUpperCase]
    omega
  have hDclass : ∀ c ∈ toUpperCase (idStr.take 12),
      (48 ≤ c ∧ c ≤ 57) ∨ (65 ≤ c ∧ c ≤ 90) := by
    intro c hc
    simp only [toUpperCase, List.mem_map] at hc
    obtain ⟨x, hx, rfl⟩ := hc
    exact upperChar_of_alnum (hchar x hx)
  have hClen := generateChecksum_length (toUpperCase (idStr.take 12))
  have hCclass := generateChecksum_class (toUpperCase (idStr.take 12))
  generalize hD : toUpperCase (idStr.take 12) = D at hDlen hDclass hClen hCclass
  generalize hC : generateChecksum D = C at hClen hCclass
  have hFullClass : ∀ c ∈ D ++ C, (48 ≤ c ∧ c ≤ 57) ∨ (65 ≤ c ∧ c ≤ 90) :=
    mem_append_class hDclass hCclass
  have hFullLen : (D ++ C).length = 16 := by simp [hDlen, hClen]
  have hgen : generateLicenseKey idStr =
      (D ++ C).take 4 ++ [45] ++ ((D ++ C).drop 4).take 4 ++ [45]
        ++ ((D ++ C).drop 8).take 4 ++ [45] ++ ((D ++ C).drop 12).take 4 := by
    rw [← hC, ← hD]
    rfl
  have hp1 : ∀ c ∈ (D ++ C).take 4, (48 ≤ c ∧ c ≤ 57) ∨ (65 ≤ c ∧ c ≤ 90) :=
    fun c hc => hFullClass c (List.mem_of_mem_take hc)
  have hp2 : ∀ c ∈ ((D ++ C).drop 4).take 4, (48 ≤ c ∧ c ≤ 57) ∨ (65 ≤ c ∧ c ≤ 90) :=
    fun c hc => hFullClass c (List.mem_of_mem_drop (List.mem_of_mem_take hc))
  have hp3 : ∀ c ∈ ((D ++ C).drop 8).take 4, (48 ≤ c ∧ c ≤ 57) ∨ (65 ≤ c ∧ c ≤ 90) :=
    fun c hc => hFullClass c (List.mem_of_mem_drop (List.mem_of_mem_take hc))
  have hp4 : ∀ c ∈ ((D ++ C).drop 12).take 4, (48 ≤ c ∧ c ≤ 57) ∨ (65 ≤ c ∧ c ≤ 90) :=
    fun c hc => hFullClass c (List.mem_of_mem_drop (List.mem_of_mem_take hc))
  have hd45 : ∀ c ∈ ([45] : List Nat), c = 45 := by
    intro c hc
    simpa using hc
  have hKEYclass : ∀ c ∈ generateLicenseKey idStr,
      c = 45 ∨ ((48 ≤ c ∧ c ≤ 57) ∨ (65 ≤ c ∧ c ≤ 90)) := by
    rw [hgen]
    exact mem_append_class
      (mem_append_class
        (mem_append_class
          (mem_append_class
            (mem_append_class
              (mem_append_class (fun c hc => Or.inr (hp1 c hc))
                (fun c hc => Or.inl (hd45 c hc)))
              (fun c hc => Or.inr (hp2 c hc)))
            (fun c hc => Or.inl (hd45 c hc)))
          (fun c hc => Or.inr (hp3 c hc)))
        (fun c hc => Or.inl (hd45 c hc)))
      (fun c hc => Or.inr (hp4 c hc))
  have hupper : toUpperCase (generateLicenseKey idStr) = generateLicenseKey idStr := by
    apply map_id_of_fixed
    intro c hc
    rcases hKEYclass c hc with h | h
    · rw [h]
      exact upperChar_dash
    · exact upperChar_fixed h
  have hfp : ∀ l : List Nat, (∀ c ∈ l, (48 ≤ c ∧ c ≤ 57) ∨ (65 ≤ c ∧ c ≤ 90)) →
      l.filter (fun c => decide (c ≠ 45)) = l := by
    intro l h
    apply List.filter_eq_self.mpr
    intro a ha
    exact decide_eq_true (by have := h a ha; omega)
  have hstrip : stripDashes (generateLicenseKey idStr) = D ++ C := by
    rw [hgen]
    simp only [stripDashes, List.filter_append, hfp _ hp1, hfp _ hp2, hfp _ hp3,
      hfp _ hp4]
    rw [show ([45] : List Nat).filter (fun c => decide (c ≠ 45)) = [] from rfl]
    simpa [List.append_assoc] using append_take_chunks (D ++ C) hFullLen
  unfold validateLicenseKey
  rw [hupper, hstrip, hD]
  have hall : (D ++ C).all isUpperAlnum = true :=
    List.all_eq_true.mpr (fun c hc => isUpperAlnum_of (hFullClass c hc))
  rw [if_neg (by simp [hFullLen, hall])]
  rw [List.take_left' hDlen, List.drop_left' hDlen]
  rw [if_neg (by simp)]
  rw [List.take_of_length_le (by omega), hC]
  rw [if_neg (by simp)]

/-- C6 witness: the round-trip succeeds for the 12-character alphanumeric
identity "abcdef123456". -/
theorem validateLicenseKey_roundTrip_witness :
    (12 ≤ fpHex12.length ∧
        ∀ c ∈ fpHex12.take 12,
          (48 ≤ c ∧ c ≤ 57) ∨ (65 ≤ c ∧ c ≤ 90) ∨ (97 ≤ c ∧ c ≤ 122)) ∧
      validateLicenseKey (generateLicenseKey fpHex12) fpHex12 = true :=
  ⟨⟨by decide, by decide⟩, validateLicenseKey_roundTrip fpHex12 (by decide) (by decide)⟩

end BillKhata
